import Mathlib

/-!
Running a command in a pod, `modules/k8s/exec.go`

A shallow embedding of `ExecE` and `Exec`.  The two functions are sequential
glue around collaborators that live outside the file (the cluster
configuration, the pod lookup, kubectl's container resolver, the SPDY executor,
the logger and testify's `require`).  The collaborators are the fields of an
environment `Env`; every call made to one of them, every line handed to the
logger and every report made to the test handle is recorded, in program order,
in the `events` of a run, so that "is never invoked" and "is logged" are
statements about that list.

Go values are modelled as follows.
* `string` is `String`, `[]string` is `List String`, `int` is `Int` (the code
  does no arithmetic on it, it only copies it).
* A non-nil `error` is a `GoError`: what the code can observe of it is whether
  its dynamic type is `*executil.CodeExitError` (and then the struct it points
  to, or that the pointer itself is nil) and the text of `Error()`.
  A nil `error` is `none`.
* A call `(T, error)` of a collaborator is an `Except GoError T`.
* A run ends by returning, by a panic, or by the test handle stopping the test.
-/

namespace k8s

/-! ## Data -/

/-- The result type `CommandOutput` (lines 19-23). -/
structure CommandOutput where
  Stdout : String
  Stderr : String
  ExitCode : Int
deriving DecidableEq, Repr

/-- The zero value `CommandOutput{}`. -/
def CommandOutput.zero : CommandOutput := ⟨"", "", 0⟩

/-- The fields of `KubectlOptions`; `ExecE` itself reads `Namespace` only. -/
structure KubectlOptions where
  ContextName : String
  ConfigPath : String
  Namespace : String
deriving DecidableEq, Repr

/-- The struct `executil.CodeExitError`: the text of the wrapped error and the
exit code. -/
structure CodeExitError where
  Err : String
  Code : Int
deriving DecidableEq, Repr

/-- A non-nil Go `error` value, as far as `ExecE` can tell values apart:
`codeExit p` has dynamic type `*executil.CodeExitError` (`p = none` is the nil
pointer of that type), `other msg` has any other dynamic type and `msg` is the
text its `Error()` returns. -/
inductive GoError where
  | codeExit (p : Option CodeExitError)
  | other (msg : String)
deriving DecidableEq, Repr

/-- The value carried by a panic: the argument of `panic(...)`, or the runtime
error of dereferencing a nil pointer. -/
inductive PanicValue where
  | value (s : String)
  | nilDereference
deriving DecidableEq, Repr

/-- The method `Error()`: `CodeExitError.Error` has a value receiver and returns
the text of the wrapped error, so calling it through a nil pointer panics. -/
def GoError.Error : GoError → Except PanicValue String
  | .codeExit (some e) => .ok e.Err
  | .codeExit none => .error .nilDereference
  | .other msg => .ok msg

/-- The call `fmt.Errorf(format, ...)` once formatted: an error of a type of the
standard library, whose text is the formatted string. -/
def fmtErrorf (formatted : String) : GoError := .other formatted

/-- The error that the `Stream` of client-go returns when the remote command
ends with a non-zero code: a `CodeExitError` struct handed over by value, whose
`Error()` is the text of its `Err`.  Its dynamic type is `executil.CodeExitError`
and not the pointer type `*executil.CodeExitError` asked for at line 98, so for
`ExecE` it is an error of another type. -/
def codeExitByValue (e : CodeExitError) : GoError := .other e.Err

/-- The type `corev1.PodPhase` is a string type. -/
abbrev PodPhase := String

/-- The constant `corev1.PodSucceeded`. -/
def PodSucceeded : PodPhase := "Succeeded"

/-- The constant `corev1.PodFailed`. -/
def PodFailed : PodPhase := "Failed"

/-- A container of a pod (`corev1.Container`), of which only the name is read. -/
structure Container where
  Name : String
deriving DecidableEq, Repr

/-- The part of `corev1.PodSpec` that is read: the containers in declared order. -/
structure PodSpec where
  Containers : List Container
deriving DecidableEq, Repr

/-- The part of `corev1.PodStatus` that is read. -/
structure PodStatus where
  Phase : PodPhase
deriving DecidableEq, Repr

/-- The part of `corev1.Pod` that is read by `ExecE` and by the resolver. -/
structure Pod where
  Name : String
  Namespace : String
  Annotations : List (String × String)
  Spec : PodSpec
  Status : PodStatus
deriving DecidableEq, Repr

/-- The cluster connection configuration (`*rest.Config`), an opaque handle. -/
structure RestConfig where
  Host : String
deriving DecidableEq, Repr

/-- The client set built from a configuration, an opaque handle. -/
structure Clientset where
  Host : String
deriving DecidableEq, Repr

/-- The struct `corev1.PodExecOptions` (lines 70-77). -/
structure PodExecOptions where
  Stdin : Bool
  Stdout : Bool
  Stderr : Bool
  TTY : Bool
  Container : String
  Command : List String
deriving DecidableEq, Repr

/-- The REST request assembled by the builder chain of lines 63-77, one field
per builder call; `req.URL()` is a function of these fields, so the request
stands for its URL. -/
structure Request where
  Client : Clientset
  Verb : String
  Resource : String
  Name : String
  Namespace : String
  SubResource : String
  Params : List (String × String)
  VersionedParams : PodExecOptions
deriving DecidableEq, Repr

/-- The two local variables `stdout` and `stderr` of type `bytes.Buffer`
(line 85). -/
inductive Buffer where
  | stdout
  | stderr
deriving DecidableEq, Repr

/-- The struct `remotecommand.StreamOptions`: which local buffer, if any, is
attached to each of the three streams, and the tty flag. -/
structure StreamOptions where
  Stdin : Option Buffer
  Stdout : Option Buffer
  Stderr : Option Buffer
  Tty : Bool
deriving DecidableEq, Repr

/-- What one call of `Stream` does: the text it writes to the writer attached as
`Stdout`, the text it writes to the writer attached as `Stderr`, and the error
it returns. -/
structure StreamResult where
  Stdout : String
  Stderr : String
  err : Option GoError
deriving DecidableEq, Repr

/-- The executor returned by `remotecommand.NewSPDYExecutor`, with its method
`Stream`. -/
structure Executor where
  Stream : StreamOptions → StreamResult

/-- The collaborators of `ExecE`.  The resolver returns its result together with
the text it wrote to the `warn` writer. -/
structure Env where
  GetKubernetesRestConfigClientE : KubectlOptions → Except GoError RestConfig
  NewForConfig : RestConfig → Except GoError Clientset
  GetPodE : KubectlOptions → String → Except GoError Pod
  FindOrDefaultContainerByName : Pod → String → Bool → Except GoError Container × String
  NewSPDYExecutor : RestConfig → String → Request → Except GoError Executor

/-- One observable step of a run: a call of a collaborator with its arguments,
a call `logger.Logf(t, format, args...)`, or a call on the test handle. -/
inductive Event where
  | GetKubernetesRestConfigClientE (options : KubectlOptions)
  | NewForConfig (config : RestConfig)
  | GetPodE (options : KubectlOptions) (podName : String)
  | FindOrDefaultContainerByName (pod : Pod) (name : String) (quiet : Bool)
  | Logf (format : String) (args : List String)
  | NewSPDYExecutor (config : RestConfig) (method : String) (req : Request)
  | Stream (opts : StreamOptions)
  | Errorf (err : GoError)
  | FailNow
deriving DecidableEq, Repr

/-- How a run ends: the function returns a value, it panics, or the test handle
stops the calling test. -/
inductive Outcome (α : Type) where
  | returned (a : α)
  | panicked (v : PanicValue)
  | failedNow
deriving DecidableEq, Repr

/-- A run: how it ends and what it did, in program order. -/
structure Run (α : Type) where
  outcome : Outcome α
  events : List Event

/-- The event is a call of the container resolver. -/
def Event.isResolver : Event → Bool
  | .FindOrDefaultContainerByName _ _ _ => true
  | _ => false

/-- The event is a call of the executor constructor. -/
def Event.isNewExecutor : Event → Bool
  | .NewSPDYExecutor _ _ _ => true
  | _ => false

/-- The event is a call of `Stream`. -/
def Event.isStream : Event → Bool
  | .Stream _ => true
  | _ => false

/-- The event is a line handed to the logger. -/
def Event.isLog : Event → Bool
  | .Logf _ _ => true
  | _ => false

/-- The event is the warning of line 102. -/
def Event.isWarning : Event → Bool
  | .Logf format _ => format = "WARNING: Non-exit code error: %s"
  | _ => false

/-- The event is the informational diagnostic of line 54. -/
def Event.isInfo : Event → Bool
  | .Logf format _ => format = "INFO: %s"
  | _ => false

/-- The event is a report of failure to the test handle. -/
def Event.isFailure : Event → Bool
  | .Errorf _ => true
  | .FailNow => true
  | _ => false

/-! ## The code -/

/-- Lines 48-60: the name of the container to target.  A requested name of
length zero is resolved by the resolver, whose warning text, when not empty, is
logged before its error is looked at; any other name is kept. -/
def resolveContainerName (env : Env) (pod : Pod) (containerName : String) :
    Except GoError String × List Event :=
  if containerName.length = 0 then
    match env.FindOrDefaultContainerByName pod containerName false with
    | (res, warnStr) =>
      let call := Event.FindOrDefaultContainerByName pod containerName false
      let logged := if warnStr ≠ "" then [Event.Logf "INFO: %s" [warnStr]] else []
      match res with
      | .error err => (.error err, call :: logged)
      | .ok container => (.ok container.Name, call :: logged)
  else
    (.ok containerName, [])

/-- Lines 63-77: the exec request. -/
def execRequest (clientset : Clientset) (pod : Pod) (options : KubectlOptions)
    (containerName : String) (command : List String) : Request :=
  { Client := clientset
    Verb := "POST"
    Resource := "pods"
    Name := pod.Name
    Namespace := options.Namespace
    SubResource := "exec"
    Params := [("container", containerName)]
    VersionedParams :=
      { Stdin := false
        Stdout := true
        Stderr := true
        TTY := false
        Container := containerName
        Command := command } }

/-- Lines 86-91: the options handed to `Stream`. -/
def streamOptions : StreamOptions :=
  { Stdin := none
    Stdout := some Buffer.stdout
    Stderr := some Buffer.stderr
    Tty := false }

/-- The method `String()` of a local buffer after the call of `Stream`: the
buffer starts empty and holds what was written to the writers it is attached
as. -/
def Buffer.String (opts : StreamOptions) (res : StreamResult) (b : Buffer) : String :=
  (if opts.Stdout = some b then res.Stdout else "") ++
  (if opts.Stderr = some b then res.Stderr else "")

/-- Lines 93-105: the exit code derived from the error of `Stream`. -/
def exitCodeOf (err : Option GoError) : Outcome Int × List Event :=
  match err with
  | none => (.returned 0, [])
  | some (.codeExit (some errcode)) => (.returned errcode.Code, [])
  | some (.codeExit none) => (.panicked .nilDereference, [])
  | some (.other msg) =>
    (.returned (-1), [Event.Logf "WARNING: Non-exit code error: %s" [msg]])

/-- The function `ExecE` (lines 26-108). -/
def ExecE (env : Env) (options : KubectlOptions) (podName : String)
    (containerName : String) (command : List String) :
    Run (CommandOutput × Option GoError) :=
  let e1 := [Event.GetKubernetesRestConfigClientE options]
  match env.GetKubernetesRestConfigClientE options with
  | .error err => ⟨.returned (CommandOutput.zero, some err), e1⟩
  | .ok config =>
  let e2 := e1 ++ [Event.NewForConfig config]
  match env.NewForConfig config with
  | .error err => ⟨.returned (CommandOutput.zero, some err), e2⟩
  | .ok clientset =>
  let e3 := e2 ++ [Event.GetPodE options podName]
  match env.GetPodE options podName with
  | .error err => ⟨.returned (CommandOutput.zero, some err), e3⟩
  | .ok pod =>
  if pod.Status.Phase = PodSucceeded ∨ pod.Status.Phase = PodFailed then
    ⟨.returned (CommandOutput.zero,
      some (fmtErrorf ("cannot exec into a container in a completed pod; current phase is "
        ++ pod.Status.Phase))), e3⟩
  else
  match resolveContainerName env pod containerName with
  | (.error err, evs) => ⟨.returned (CommandOutput.zero, some err), e3 ++ evs⟩
  | (.ok containerName, evs) =>
  let e4 := e3 ++ evs
  let req := execRequest clientset pod options containerName command
  let e5 := e4 ++ [Event.NewSPDYExecutor config "POST" req]
  match env.NewSPDYExecutor config "POST" req with
  | .error err =>
    match err.Error with
    | .ok msg => ⟨.panicked (.value msg), e5⟩
    | .error v => ⟨.panicked v, e5⟩
  | .ok execreq =>
  let res := execreq.Stream streamOptions
  let e6 := e5 ++ [Event.Stream streamOptions]
  match exitCodeOf res.err with
  | (.returned exitcode, evs) =>
    ⟨.returned (⟨Buffer.String streamOptions res .stdout,
        Buffer.String streamOptions res .stderr, exitcode⟩, res.err), e6 ++ evs⟩
  | (.panicked v, evs) => ⟨.panicked v, e6 ++ evs⟩
  | (.failedNow, evs) => ⟨.failedNow, e6 ++ evs⟩

/-- Modelled from the spec: testify's `require.NoError`, which is not part of the
file.  On a non-nil error it reports a failure to the test handle and stops the
calling test at once; on a nil error it does nothing. -/
def requireNoError (err : Option GoError) : Outcome Unit × List Event :=
  match err with
  | none => (.returned (), [])
  | some e => (.failedNow, [Event.Errorf e, Event.FailNow])

/-- The function `Exec` (lines 110-114). -/
def Exec (env : Env) (options : KubectlOptions) (podName : String)
    (containerName : String) (command : List String) : Run CommandOutput :=
  let r := ExecE env options podName containerName command
  match r.outcome with
  | .returned (output, err) =>
    match requireNoError err with
    | (.returned (), evs) => ⟨.returned output, r.events ++ evs⟩
    | (.panicked v, evs) => ⟨.panicked v, r.events ++ evs⟩
    | (.failedNow, evs) => ⟨.failedNow, r.events ++ evs⟩
  | .panicked v => ⟨.panicked v, r.events⟩
  | .failedNow => ⟨.failedNow, r.events⟩

/-- Modelled from the spec: the chosen default of a pod, a container explicitly
marked as the default through the annotation `annotationKey`; there is one
when the annotation is set to a non-empty name and a container of the pod
carries that name. -/
def podcmd.declaredDefault (annotationKey : String) (pod : Pod) : Option Container :=
  match pod.Annotations.lookup annotationKey with
  | none => none
  | some name =>
    if name ≠ "" then pod.Spec.Containers.find? (fun c => c.Name = name) else none

/-- Modelled from the spec: the text of the informational diagnostic of the
resolver; the spec does not fix its wording, this one names the chosen
container and the containers it was chosen from. -/
def podcmd.defaultedDiagnostic (chosen : Container) (all : List Container) : String :=
  "Defaulted container " ++ chosen.Name ++ " out of: " ++
    ", ".intercalate (all.map (fun c => c.Name)) ++ "\n"

/-- Modelled from the spec: kubectl's `podcmd.FindOrDefaultContainerByName`, which is not
part of the file (section 4.1).  A non-empty name is used as it is.  For an empty
name the resolver fails only if the pod has no container; it prefers the
container marked as the default of the pod and otherwise falls back to the first
container in declared order; falling back among several containers is reported
as a diagnostic on the `warn` writer unless `quiet` is set, never as an error. -/
def podcmd.FindOrDefaultContainerByName (annotationKey : String) (pod : Pod)
    (name : String) (quiet : Bool) : Except GoError Container × String :=
  if name ≠ "" then
    (.ok ⟨name⟩, "")
  else
    match pod.Spec.Containers with
    | [] =>
      (.error (fmtErrorf ("pod " ++ pod.Namespace ++ "/" ++ pod.Name ++
        " does not have any containers")), "")
    | first :: rest =>
      match podcmd.declaredDefault annotationKey pod with
      | some c => (.ok c, "")
      | none =>
        (.ok first,
          if !quiet && !rest.isEmpty then podcmd.defaultedDiagnostic first (first :: rest)
          else "")

/-! ## Sample inputs -/

/-- The pod of the scenarios of the spec: "app-1" with the containers "sidecar"
and "main" in that order, in the given phase and with the given annotations. -/
def samplePod (phase : PodPhase) (annotations : List (String × String)) : Pod :=
  { Name := "app-1"
    Namespace := "default"
    Annotations := annotations
    Spec := { Containers := [⟨"sidecar"⟩, ⟨"main"⟩] }
    Status := { Phase := phase } }

/-- Options selecting the namespace "default". -/
def sampleOptions : KubectlOptions :=
  { ContextName := "", ConfigPath := "", Namespace := "default" }

/-- The configuration handed out by the sample environments. -/
def sampleConfig : RestConfig := ⟨"https://cluster.local"⟩

/-- The client set handed out by the sample environments. -/
def sampleClientset : Clientset := ⟨"https://cluster.local"⟩

/-- An executor whose `Stream` always behaves as `res`. -/
def sampleExecutor (res : StreamResult) : Executor := ⟨fun _ => res⟩

/-- A cluster holding the one pod `pod`, in which every stage succeeds and the
remote command behaves as `res`; the resolver is the modelled one with
kubectl's annotation key. -/
def sampleEnv (pod : Pod) (res : StreamResult) : Env :=
  { GetKubernetesRestConfigClientE := fun _ => .ok sampleConfig
    NewForConfig := fun _ => .ok sampleClientset
    GetPodE := fun _ _ => .ok pod
    FindOrDefaultContainerByName :=
      podcmd.FindOrDefaultContainerByName "kubectl.kubernetes.io/default-container"
    NewSPDYExecutor := fun _ _ _ => .ok (sampleExecutor res) }

/-- The same cluster, except that the connection upgrade cannot be set up: the
executor constructor returns an error. -/
def sampleEnvNoUpgrade (pod : Pod) : Env :=
  { sampleEnv pod ⟨"", "", none⟩ with
    NewSPDYExecutor := fun _ _ _ => .error (.other "unable to upgrade connection") }

/-- The command of the scenarios. -/
def sampleCommand : List String := ["echo", "hi"]

/-! ## Auxiliary facts -/

theorem string_length_eq_zero_iff (s : String) : s.length = 0 ↔ s = "" := by
  cases s with
  | mk l =>
    constructor
    · intro h
      have hl : l = [] := List.length_eq_zero.mp h
      subst hl
      rfl
    · intro h
      rw [h]
      rfl

/-- The stage of lines 48-60 calls the resolver and logs informational lines,
nothing else. -/
theorem resolveContainerName_events (env : Env) (pod : Pod) (containerName : String)
    (e : Event) (he : e ∈ (resolveContainerName env pod containerName).2) :
    e = Event.FindOrDefaultContainerByName pod containerName false ∨
      ∃ w, e = Event.Logf "INFO: %s" [w] := by
  unfold resolveContainerName at he
  split at he
  · rcases hr : env.FindOrDefaultContainerByName pod containerName false with ⟨res, warnStr⟩
    rw [hr] at he
    cases res <;> by_cases hw : warnStr = "" <;> simp [hw] at he <;> aesop
  · simp at he

/-- A requested name that is not empty is kept and nothing is called. -/
theorem resolveContainerName_of_ne (env : Env) (pod : Pod) (containerName : String)
    (hne : containerName ≠ "") :
    resolveContainerName env pod containerName = (.ok containerName, []) := by
  have h : ¬ containerName.length = 0 := fun h => hne ((string_length_eq_zero_iff _).mp h)
  simp [resolveContainerName, h]

/-- The run of `ExecE` once the executor has been constructed: the stream is
run, its error classified, and the two buffers returned with the exit code. -/
theorem ExecE_of_executor (env : Env) (options : KubectlOptions) (podName containerName : String)
    (command : List String) (config : RestConfig) (clientset : Clientset) (pod : Pod)
    (c : String) (evs : List Event) (ex : Executor)
    (hcfg : env.GetKubernetesRestConfigClientE options = .ok config)
    (hcs : env.NewForConfig config = .ok clientset)
    (hpod : env.GetPodE options podName = .ok pod)
    (hphase : ¬ (pod.Status.Phase = PodSucceeded ∨ pod.Status.Phase = PodFailed))
    (hres : resolveContainerName env pod containerName = (.ok c, evs))
    (hexec : env.NewSPDYExecutor config "POST"
      (execRequest clientset pod options c command) = .ok ex) :
    ExecE env options podName containerName command =
      (let pre := [Event.GetKubernetesRestConfigClientE options, Event.NewForConfig config,
          Event.GetPodE options podName] ++ evs ++
          [Event.NewSPDYExecutor config "POST" (execRequest clientset pod options c command),
            Event.Stream streamOptions]
       let res := ex.Stream streamOptions
       match exitCodeOf res.err with
       | (.returned exitcode, evs2) =>
         ⟨.returned (⟨res.Stdout, res.Stderr, exitcode⟩, res.err), pre ++ evs2⟩
       | (.panicked v, evs2) => ⟨.panicked v, pre ++ evs2⟩
       | (.failedNow, evs2) => ⟨.failedNow, pre ++ evs2⟩) := by
  simp only [ExecE, hcfg, hcs, hpod, if_neg hphase, hres, hexec]
  rcases hx : exitCodeOf (ex.Stream streamOptions).err with ⟨o, evs2⟩
  cases o <;> simp [Buffer.String, streamOptions]

/-- The classification of lines 93-105 never stops the test. -/
theorem exitCodeOf_ne_failedNow (err : Option GoError) :
    (exitCodeOf err).1 ≠ Outcome.failedNow := by
  unfold exitCodeOf
  split <;> simp

/-- The classification of lines 93-105 logs warnings and nothing else. -/
theorem exitCodeOf_events (err : Option GoError) (e : Event) (he : e ∈ (exitCodeOf err).2) :
    ∃ msg, e = Event.Logf "WARNING: Non-exit code error: %s" [msg] := by
  unfold exitCodeOf at he
  split at he <;> simp at he
  exact ⟨_, he⟩

/-- The run of `ExecE` once the container name is resolved: the executor
constructor is called next, with the request built for that name, and what
follows is the call of `Stream` and warnings at most. -/
theorem ExecE_events_of_resolved (env : Env) (options : KubectlOptions)
    (podName containerName : String) (command : List String) (config : RestConfig)
    (clientset : Clientset) (pod : Pod) (c : String) (evs : List Event)
    (hcfg : env.GetKubernetesRestConfigClientE options = .ok config)
    (hcs : env.NewForConfig config = .ok clientset)
    (hpod : env.GetPodE options podName = .ok pod)
    (hphase : ¬ (pod.Status.Phase = PodSucceeded ∨ pod.Status.Phase = PodFailed))
    (hres : resolveContainerName env pod containerName = (.ok c, evs)) :
    ∃ tail, (ExecE env options podName containerName command).events =
        [Event.GetKubernetesRestConfigClientE options, Event.NewForConfig config,
          Event.GetPodE options podName] ++ evs ++
          Event.NewSPDYExecutor config "POST" (execRequest clientset pod options c command) ::
            tail ∧
      ∀ e ∈ tail, e = Event.Stream streamOptions ∨
        ∃ msg, e = Event.Logf "WARNING: Non-exit code error: %s" [msg] := by
  cases hexec : env.NewSPDYExecutor config "POST" (execRequest clientset pod options c command) with
  | error err =>
    refine ⟨[], ?_, by simp⟩
    simp only [ExecE, hcfg, hcs, hpod, if_neg hphase, hres, hexec]
    cases err.Error <;> simp
  | ok ex =>
    rw [ExecE_of_executor env options podName containerName command config clientset pod c evs ex
      hcfg hcs hpod hphase hres hexec]
    have hev := exitCodeOf_events (ex.Stream streamOptions).err
    rcases hx : exitCodeOf (ex.Stream streamOptions).err with ⟨o, evs2⟩
    rw [hx] at hev
    refine ⟨Event.Stream streamOptions :: evs2, ?_, ?_⟩
    · cases o <;> simp [hx]
    · intro e he
      rcases List.mem_cons.mp he with h | h
      · exact Or.inl h
      · exact Or.inr (hev e h)

/-- A run of `ExecE` never ends by the test handle stopping the test. -/
theorem ExecE_ne_failedNow (env : Env) (options : KubectlOptions)
    (podName containerName : String) (command : List String) :
    (ExecE env options podName containerName command).outcome ≠ Outcome.failedNow := by
  have hx := exitCodeOf_ne_failedNow
  unfold ExecE
  simp only []
  repeat (first | split | simp_all)
  rename_i h
  exact absurd (congrArg Prod.fst h) (hx _)

/-- The diagnostic of the modelled resolver is never the empty text. -/
theorem podcmd.defaultedDiagnostic_ne_empty (chosen : Container) (all : List Container) :
    podcmd.defaultedDiagnostic chosen all ≠ "" := by
  intro h
  have hlen := congrArg String.length h
  have h20 : ("Defaulted container ").length = 20 := by decide
  have h0 : ("").length = 0 := by decide
  simp only [podcmd.defaultedDiagnostic, String.length_append, h20, h0] at hlen
  omega

/-- A declared default is a container of the pod named by the annotation. -/
theorem podcmd.declaredDefault_some (key : String) (pod : Pod) (c : Container)
    (h : podcmd.declaredDefault key pod = some c) :
    ∃ name, pod.Annotations.lookup key = some name ∧ name ≠ "" ∧
      c ∈ pod.Spec.Containers ∧ c.Name = name := by
  unfold podcmd.declaredDefault at h
  split at h
  · simp at h
  · rename_i name hname
    by_cases hn : name = ""
    · simp [hn] at h
    · simp only [ne_eq, hn, not_false_eq_true, if_true] at h
      refine ⟨name, hname, hn, List.mem_of_find?_eq_some h, ?_⟩
      simpa using List.find?_some h

/-- Without a declared default the annotation is absent, empty, or names no
container of the pod. -/
theorem podcmd.declaredDefault_none (key : String) (pod : Pod)
    (h : podcmd.declaredDefault key pod = none) :
    pod.Annotations.lookup key = none ∨ pod.Annotations.lookup key = some "" ∨
      ∃ name, pod.Annotations.lookup key = some name ∧
        ∀ c ∈ pod.Spec.Containers, c.Name ≠ name := by
  unfold podcmd.declaredDefault at h
  split at h
  · rename_i hname
    exact Or.inl hname
  · rename_i name hname
    by_cases hn : name = ""
    · subst hn
      exact Or.inr (Or.inl hname)
    · simp only [ne_eq, hn, not_false_eq_true, if_true] at h
      refine Or.inr (Or.inr ⟨name, hname, ?_⟩)
      intro c hc
      have := List.find?_eq_none.mp h c hc
      simpa using this

/-! ## The exit code and the captured output -/

/-- C1, the code at a failing input: the remote command of the second scenario
ends with code 2, so that `Stream` returns the `CodeExitError` of code 2 by
value.  The assertion of line 98 asks for the pointer type and fails on it:
`ExecE` returns the exit code -1, not 2, together with the non-nil error, and
logs the warning of line 102 as for an unknown error. -/
theorem ExecE_exit_code_lost_on_remote_exit :
    (ExecE (sampleEnv (samplePod "Running" [])
          ⟨"", "", some (codeExitByValue ⟨"command terminated with exit code 2", 2⟩)⟩)
        sampleOptions "app-1" "main" sampleCommand).outcome =
      .returned (⟨"", "", -1⟩,
        some (codeExitByValue ⟨"command terminated with exit code 2", 2⟩)) ∧
    (∀ out err, (ExecE (sampleEnv (samplePod "Running" [])
          ⟨"", "", some (codeExitByValue ⟨"command terminated with exit code 2", 2⟩)⟩)
        sampleOptions "app-1" "main" sampleCommand).outcome = .returned (out, err) →
      out.ExitCode ≠ 2) ∧
    (ExecE (sampleEnv (samplePod "Running" [])
          ⟨"", "", some (codeExitByValue ⟨"command terminated with exit code 2", 2⟩)⟩)
        sampleOptions "app-1" "main" sampleCommand).events.filter Event.isWarning =
      [Event.Logf "WARNING: Non-exit code error: %s" ["command terminated with exit code 2"]] := by
  have hrun : (ExecE (sampleEnv (samplePod "Running" [])
          ⟨"", "", some (codeExitByValue ⟨"command terminated with exit code 2", 2⟩)⟩)
        sampleOptions "app-1" "main" sampleCommand).outcome =
      .returned (⟨"", "", -1⟩,
        some (codeExitByValue ⟨"command terminated with exit code 2", 2⟩)) := rfl
  refine ⟨hrun, ?_, by decide⟩
  intro out err h
  rw [hrun] at h
  cases h
  decide

/-- C2: when every stage before the stream succeeds and `Stream` returns a nil
error, `ExecE` returns an output whose exit code is 0 together with a nil
error. -/
theorem ExecE_clean_exit (env : Env) (options : KubectlOptions)
    (podName containerName : String) (command : List String) (config : RestConfig)
    (clientset : Clientset) (pod : Pod) (c : String) (evs : List Event) (ex : Executor)
    (hcfg : env.GetKubernetesRestConfigClientE options = .ok config)
    (hcs : env.NewForConfig config = .ok clientset)
    (hpod : env.GetPodE options podName = .ok pod)
    (hphase : ¬ (pod.Status.Phase = PodSucceeded ∨ pod.Status.Phase = PodFailed))
    (hres : resolveContainerName env pod containerName = (.ok c, evs))
    (hexec : env.NewSPDYExecutor config "POST"
      (execRequest clientset pod options c command) = .ok ex)
    (hstream : (ex.Stream streamOptions).err = none) :
    ∃ out, (ExecE env options podName containerName command).outcome =
        .returned (out, none) ∧ out.ExitCode = 0 := by
  rw [ExecE_of_executor env options podName containerName command config clientset pod c evs ex
    hcfg hcs hpod hphase hres hexec]
  simp [hstream, exitCodeOf]

/-- C2 at the first scenario of the spec: `echo hi` in the container "main". -/
theorem ExecE_clean_exit_witness :
    ∃ out, (ExecE (sampleEnv (samplePod "Running" []) ⟨"hi\n", "", none⟩)
        sampleOptions "app-1" "main" sampleCommand).outcome = .returned (out, none) ∧
      out.ExitCode = 0 :=
  ExecE_clean_exit (sampleEnv (samplePod "Running" []) ⟨"hi\n", "", none⟩)
    sampleOptions "app-1" "main" sampleCommand sampleConfig sampleClientset
    (samplePod "Running" []) "main" [] (sampleExecutor ⟨"hi\n", "", none⟩)
    rfl rfl rfl (by decide) rfl rfl rfl

/-- C3: when `Stream` ends with an error `serr`, the run is classified as
follows.  If the error is not of type `*CodeExitError`, `ExecE` returns the exit
code -1 and that error, and among all the events of the run there is exactly one
warning, the line "WARNING: Non-exit code error: " followed by the text of the
error.  If the stream ends cleanly or with a `*CodeExitError` carrying a code,
the run has no warning at all. -/
theorem ExecE_unclassified_error (env : Env) (options : KubectlOptions)
    (podName containerName : String) (command : List String) (config : RestConfig)
    (clientset : Clientset) (pod : Pod) (c : String) (evs : List Event) (ex : Executor)
    (hcfg : env.GetKubernetesRestConfigClientE options = .ok config)
    (hcs : env.NewForConfig config = .ok clientset)
    (hpod : env.GetPodE options podName = .ok pod)
    (hphase : ¬ (pod.Status.Phase = PodSucceeded ∨ pod.Status.Phase = PodFailed))
    (hres : resolveContainerName env pod containerName = (.ok c, evs))
    (hexec : env.NewSPDYExecutor config "POST"
      (execRequest clientset pod options c command) = .ok ex) :
    (∀ msg, (ex.Stream streamOptions).err = some (.other msg) →
      (∃ out err, (ExecE env options podName containerName command).outcome =
          .returned (out, some err) ∧ out.ExitCode = -1 ∧ err = .other msg) ∧
      (ExecE env options podName containerName command).events.filter Event.isWarning =
        [Event.Logf "WARNING: Non-exit code error: %s" [msg]] ∧
      ((ExecE env options podName containerName command).events.filter
        Event.isWarning).length = 1) ∧
    (((ex.Stream streamOptions).err = none ∨
        ∃ e, (ex.Stream streamOptions).err = some (.codeExit (some e))) →
      (ExecE env options podName containerName command).events.filter Event.isWarning = []) := by
  have hpre : evs.filter Event.isWarning = [] := by
    rw [List.filter_eq_nil_iff]
    intro e he
    have hmem : e ∈ (resolveContainerName env pod containerName).2 := by rw [hres]; exact he
    rcases resolveContainerName_events env pod containerName e hmem with h | ⟨w, h⟩ <;>
      subst h <;> simp [Event.isWarning]
  rw [ExecE_of_executor env options podName containerName command config clientset pod c evs ex
    hcfg hcs hpod hphase hres hexec]
  refine ⟨?_, ?_⟩
  · intro msg hstream
    simp [hstream, exitCodeOf, List.filter_append, hpre, Event.isWarning, List.filter_cons]
  · rintro (hstream | ⟨e, hstream⟩) <;>
      simp [hstream, exitCodeOf, List.filter_append, hpre, Event.isWarning, List.filter_cons]

/-- C3 on a broken connection, with the resolver's own informational line in the
same run: one warning, exit code -1. -/
theorem ExecE_unclassified_error_witness :
    (∃ out err, (ExecE (sampleEnv (samplePod "Running" []) ⟨"par", "", some (.other "connection reset")⟩)
          sampleOptions "app-1" "" sampleCommand).outcome =
          .returned (out, some err) ∧ out.ExitCode = -1 ∧ err = .other "connection reset") ∧
      (ExecE (sampleEnv (samplePod "Running" []) ⟨"par", "", some (.other "connection reset")⟩)
          sampleOptions "app-1" "" sampleCommand).events.filter Event.isWarning =
        [Event.Logf "WARNING: Non-exit code error: %s" ["connection reset"]] ∧
      ((ExecE (sampleEnv (samplePod "Running" []) ⟨"par", "", some (.other "connection reset")⟩)
          sampleOptions "app-1" "" sampleCommand).events.filter Event.isWarning).length = 1 :=
  (ExecE_unclassified_error
    (sampleEnv (samplePod "Running" []) ⟨"par", "", some (.other "connection reset")⟩)
    sampleOptions "app-1" "" sampleCommand sampleConfig sampleClientset
    (samplePod "Running" []) "sidecar"
    [Event.FindOrDefaultContainerByName (samplePod "Running" []) "" false,
      Event.Logf "INFO: %s" [podcmd.defaultedDiagnostic ⟨"sidecar"⟩ [⟨"sidecar"⟩, ⟨"main"⟩]]]
    (sampleExecutor ⟨"par", "", some (.other "connection reset")⟩)
    rfl rfl rfl (by decide) rfl rfl).1 "connection reset" rfl

/-- C6: once the stream is reached, for each of the three ways `Stream` can
end (no error, a `*CodeExitError` carrying a code, an error of another type),
`ExecE` returns, and the returned `Stdout` is exactly the text written to the
stdout writer and the returned `Stderr` exactly the text written to the stderr
writer, also when the returned error is non-nil. -/
theorem ExecE_output_captured (env : Env) (options : KubectlOptions)
    (podName containerName : String) (command : List String) (config : RestConfig)
    (clientset : Clientset) (pod : Pod) (c : String) (evs : List Event) (ex : Executor)
    (hcfg : env.GetKubernetesRestConfigClientE options = .ok config)
    (hcs : env.NewForConfig config = .ok clientset)
    (hpod : env.GetPodE options podName = .ok pod)
    (hphase : ¬ (pod.Status.Phase = PodSucceeded ∨ pod.Status.Phase = PodFailed))
    (hres : resolveContainerName env pod containerName = (.ok c, evs))
    (hexec : env.NewSPDYExecutor config "POST"
      (execRequest clientset pod options c command) = .ok ex)
    (hshape : (ex.Stream streamOptions).err = none ∨
      (∃ e, (ex.Stream streamOptions).err = some (.codeExit (some e))) ∨
      ∃ msg, (ex.Stream streamOptions).err = some (.other msg)) :
    ∃ out, (ExecE env options podName containerName command).outcome =
        .returned (out, (ex.Stream streamOptions).err) ∧
      out.Stdout = (ex.Stream streamOptions).Stdout ∧
      out.Stderr = (ex.Stream streamOptions).Stderr := by
  rw [ExecE_of_executor env options podName containerName command config clientset pod c evs ex
    hcfg hcs hpod hphase hres hexec]
  rcases hshape with h | ⟨e, h⟩ | ⟨msg, h⟩ <;> simp [h, exitCodeOf]

/-- C6 on a command that writes to both channels and then fails with code 2. -/
theorem ExecE_output_captured_witness :
    ∃ out, (ExecE (sampleEnv (samplePod "Running" []) ⟨"part", "oops", some (.codeExit (some ⟨"exit 2", 2⟩))⟩)
        sampleOptions "app-1" "main" sampleCommand).outcome =
        .returned (out, ((sampleExecutor ⟨"part", "oops", some (.codeExit (some ⟨"exit 2", 2⟩))⟩).Stream
          streamOptions).err) ∧
      out.Stdout = ((sampleExecutor ⟨"part", "oops", some (.codeExit (some ⟨"exit 2", 2⟩))⟩).Stream
          streamOptions).Stdout ∧
      out.Stderr = ((sampleExecutor ⟨"part", "oops", some (.codeExit (some ⟨"exit 2", 2⟩))⟩).Stream
          streamOptions).Stderr :=
  ExecE_output_captured
    (sampleEnv (samplePod "Running" []) ⟨"part", "oops", some (.codeExit (some ⟨"exit 2", 2⟩))⟩)
    sampleOptions "app-1" "main" sampleCommand sampleConfig sampleClientset
    (samplePod "Running" []) "main" []
    (sampleExecutor ⟨"part", "oops", some (.codeExit (some ⟨"exit 2", 2⟩))⟩)
    rfl rfl rfl (by decide) rfl rfl (Or.inr (Or.inl ⟨⟨"exit 2", 2⟩, rfl⟩))

/-! ## The phase check -/

/-- C4: let the pod fetched by `ExecE` be `pod`.  If its phase is Succeeded or
Failed, then for every requested container and command `ExecE` returns the zero
`CommandOutput` with an error whose text is "cannot exec into a container in a
completed pod; current phase is " followed by the phase, after the three calls
that fetch the configuration, the client set and the pod: the resolver, the
executor constructor and the stream are not called.  For every other phase the
run does not stop at the check: the resolver or the executor constructor is
called, and an error returned by `ExecE` is then the error of the resolver or
the error of the stream. -/
theorem ExecE_terminal_phase_refused (env : Env) (options : KubectlOptions)
    (podName containerName : String) (command : List String) (config : RestConfig)
    (clientset : Clientset) (pod : Pod)
    (hcfg : env.GetKubernetesRestConfigClientE options = .ok config)
    (hcs : env.NewForConfig config = .ok clientset)
    (hpod : env.GetPodE options podName = .ok pod) :
    ((pod.Status.Phase = PodSucceeded ∨ pod.Status.Phase = PodFailed) →
      (ExecE env options podName containerName command).outcome =
        .returned (CommandOutput.zero, some (.other
          ("cannot exec into a container in a completed pod; current phase is " ++
            pod.Status.Phase))) ∧
      (ExecE env options podName containerName command).events =
        [Event.GetKubernetesRestConfigClientE options, Event.NewForConfig config,
          Event.GetPodE options podName] ∧
      ∀ e ∈ (ExecE env options podName containerName command).events,
        e.isResolver = false ∧ e.isNewExecutor = false ∧ e.isStream = false) ∧
    (¬ (pod.Status.Phase = PodSucceeded ∨ pod.Status.Phase = PodFailed) →
      (∃ e ∈ (ExecE env options podName containerName command).events,
        e.isResolver = true ∨ e.isNewExecutor = true) ∧
      ∀ out err, (ExecE env options podName containerName command).outcome =
          .returned (out, some err) →
        (∃ evs, resolveContainerName env pod containerName = (.error err, evs)) ∨
        ∃ c evs ex, resolveContainerName env pod containerName = (.ok c, evs) ∧
          env.NewSPDYExecutor config "POST"
            (execRequest clientset pod options c command) = .ok ex ∧
          (ex.Stream streamOptions).err = some err) := by
  constructor
  · intro hphase
    have hrun : ExecE env options podName containerName command =
        ⟨.returned (CommandOutput.zero, some (.other
          ("cannot exec into a container in a completed pod; current phase is " ++
            pod.Status.Phase))),
          [Event.GetKubernetesRestConfigClientE options, Event.NewForConfig config,
            Event.GetPodE options podName]⟩ := by
      simp only [ExecE, hcfg, hcs, hpod, if_pos hphase, fmtErrorf]
      rfl
    rw [hrun]
    refine ⟨rfl, rfl, ?_⟩
    intro e he
    simp only [List.mem_cons, List.mem_singleton, List.not_mem_nil, or_false] at he
    rcases he with h | h | h <;> subst h <;> exact ⟨rfl, rfl, rfl⟩
  · intro hphase
    rcases hr : resolveContainerName env pod containerName with ⟨res, evs⟩
    cases res with
    | error err =>
      have hrun : ExecE env options podName containerName command =
          ⟨.returned (CommandOutput.zero, some err),
            [Event.GetKubernetesRestConfigClientE options, Event.NewForConfig config,
              Event.GetPodE options podName] ++ evs⟩ := by
        simp only [ExecE, hcfg, hcs, hpod, if_neg hphase, hr]
        rfl
      rw [hrun]
      constructor
      · refine ⟨Event.FindOrDefaultContainerByName pod containerName false, ?_, Or.inl rfl⟩
        apply List.mem_append_right
        unfold resolveContainerName at hr
        split at hr
        · rcases hf : env.FindOrDefaultContainerByName pod containerName false with ⟨r, w⟩
          rw [hf] at hr
          cases r <;> simp at hr
          rw [← hr.2]
          exact List.mem_cons_self _ _
        · simp at hr
      · intro out e he
        simp only [Outcome.returned.injEq, Prod.mk.injEq, Option.some.injEq] at he
        rw [← he.2]
        exact Or.inl ⟨evs, rfl⟩
    | ok c =>
      constructor
      · obtain ⟨tail, htail, -⟩ := ExecE_events_of_resolved env options podName containerName
          command config clientset pod c evs hcfg hcs hpod hphase hr
        refine ⟨Event.NewSPDYExecutor config "POST"
          (execRequest clientset pod options c command), ?_, Or.inr rfl⟩
        rw [htail]
        simp
      · intro out e he
        refine Or.inr ⟨c, evs, ?_⟩
        cases hexec : env.NewSPDYExecutor config "POST"
            (execRequest clientset pod options c command) with
        | error err =>
          exfalso
          simp only [ExecE, hcfg, hcs, hpod, if_neg hphase, hr, hexec] at he
          cases hE : err.Error <;> rw [hE] at he <;> simp at he
        | ok ex =>
          refine ⟨ex, rfl, rfl, ?_⟩
          rw [ExecE_of_executor env options podName containerName command config clientset pod
            c evs ex hcfg hcs hpod hphase hr hexec] at he
          rcases hx : exitCodeOf (ex.Stream streamOptions).err with ⟨o, evs2⟩
          simp only [hx] at he
          cases o <;> simp at he
          exact he.2

/-- C4 at the third scenario of the spec, a pod in phase Succeeded. -/
theorem ExecE_terminal_phase_refused_witness :
    (ExecE (sampleEnv (samplePod "Succeeded" []) ⟨"", "", none⟩)
        sampleOptions "app-1" "" sampleCommand).outcome =
      .returned (CommandOutput.zero, some (.other
        ("cannot exec into a container in a completed pod; current phase is " ++
          (samplePod "Succeeded" []).Status.Phase))) :=
  ((ExecE_terminal_phase_refused (sampleEnv (samplePod "Succeeded" []) ⟨"", "", none⟩)
    sampleOptions "app-1" "" sampleCommand sampleConfig sampleClientset
    (samplePod "Succeeded" []) rfl rfl rfl).1 (Or.inl rfl)).1

/-! ## The executor constructor -/

/-- C5, the code at a failing input: in a cluster where the connection upgrade
cannot be set up, so that `NewSPDYExecutor` returns the error "unable to upgrade
connection", `ExecE` does not return that error: it panics with its text, after
the call of the constructor and without reaching the stream. -/
theorem ExecE_panics_when_upgrade_fails :
    (ExecE (sampleEnvNoUpgrade (samplePod "Running" []))
        sampleOptions "app-1" "main" sampleCommand).outcome =
      .panicked (.value "unable to upgrade connection") ∧
    (∀ out err, (ExecE (sampleEnvNoUpgrade (samplePod "Running" []))
        sampleOptions "app-1" "main" sampleCommand).outcome ≠ .returned (out, err)) ∧
    (ExecE (sampleEnvNoUpgrade (samplePod "Running" []))
        sampleOptions "app-1" "main" sampleCommand).events =
      [Event.GetKubernetesRestConfigClientE sampleOptions, Event.NewForConfig sampleConfig,
        Event.GetPodE sampleOptions "app-1",
        Event.NewSPDYExecutor sampleConfig "POST"
          (execRequest sampleClientset (samplePod "Running" []) sampleOptions "main"
            sampleCommand)] := by
  have hrun : (ExecE (sampleEnvNoUpgrade (samplePod "Running" []))
        sampleOptions "app-1" "main" sampleCommand).outcome =
      .panicked (.value "unable to upgrade connection") := rfl
  refine ⟨hrun, ?_, rfl⟩
  intro out err h
  rw [hrun] at h
  cases h

/-! ## The target container and the request -/

/-- C7: for a pod in a non-terminal phase and a requested container name that is
not empty, whatever the containers of the pod are, the executor constructor is
called with the request built for that very name; no event of the run is a call
of the resolver or an informational line; every request of the run names the
requested container; and the whole run is the same whatever the resolver would
have answered, so that no error of the resolver can be returned. -/
theorem ExecE_named_container_as_is (env : Env) (options : KubectlOptions)
    (podName containerName : String) (command : List String) (config : RestConfig)
    (clientset : Clientset) (pod : Pod)
    (hcfg : env.GetKubernetesRestConfigClientE options = .ok config)
    (hcs : env.NewForConfig config = .ok clientset)
    (hpod : env.GetPodE options podName = .ok pod)
    (hphase : ¬ (pod.Status.Phase = PodSucceeded ∨ pod.Status.Phase = PodFailed))
    (hne : containerName ≠ "") :
    Event.NewSPDYExecutor config "POST"
        (execRequest clientset pod options containerName command) ∈
      (ExecE env options podName containerName command).events ∧
    (∀ e ∈ (ExecE env options podName containerName command).events,
      e.isResolver = false ∧ e.isInfo = false) ∧
    (∀ cfg m req, Event.NewSPDYExecutor cfg m req ∈
        (ExecE env options podName containerName command).events →
      req.Params = [("container", containerName)] ∧
        req.VersionedParams.Container = containerName) ∧
    (∀ resolver : Pod → String → Bool → Except GoError Container × String,
      ExecE { env with FindOrDefaultContainerByName := resolver } options podName
          containerName command =
        ExecE env options podName containerName command) := by
  have hres := resolveContainerName_of_ne env pod containerName hne
  obtain ⟨tail, htail, htl⟩ := ExecE_events_of_resolved env options podName containerName
    command config clientset pod containerName [] hcfg hcs hpod hphase hres
  refine ⟨?_, ?_, ?_, ?_⟩
  · rw [htail]
    simp
  · intro e he
    rw [htail] at he
    simp only [List.append_nil, List.cons_append, List.nil_append, List.mem_cons] at he
    rcases he with h | h | h | h | h
    · subst h; exact ⟨rfl, rfl⟩
    · subst h; exact ⟨rfl, rfl⟩
    · subst h; exact ⟨rfl, rfl⟩
    · subst h; exact ⟨rfl, rfl⟩
    · rcases htl e h with h2 | ⟨msg, h2⟩ <;> subst h2
      · exact ⟨rfl, rfl⟩
      · exact ⟨rfl, by simp [Event.isInfo]⟩
  · intro cfg m req he
    rw [htail] at he
    simp only [List.append_nil, List.cons_append, List.nil_append, List.mem_cons] at he
    rcases he with h | h | h | h | h
    · cases h
    · cases h
    · cases h
    · cases h
      exact ⟨rfl, rfl⟩
    · rcases htl _ h with h2 | ⟨msg, h2⟩ <;> cases h2
  · intro resolver
    have hres2 := resolveContainerName_of_ne
      { env with FindOrDefaultContainerByName := resolver } pod containerName hne
    simp only [ExecE, hcfg, hcs, hpod, if_neg hphase, hres, hres2]

/-- C7 on a name that no container of the pod carries. -/
theorem ExecE_named_container_as_is_witness :
    Event.NewSPDYExecutor sampleConfig "POST"
        (execRequest sampleClientset (samplePod "Running" []) sampleOptions "ghost"
          sampleCommand) ∈
      (ExecE (sampleEnv (samplePod "Running" []) ⟨"", "", none⟩) sampleOptions "app-1" "ghost"
        sampleCommand).events :=
  (ExecE_named_container_as_is (sampleEnv (samplePod "Running" []) ⟨"", "", none⟩)
    sampleOptions "app-1" "ghost" sampleCommand sampleConfig sampleClientset
    (samplePod "Running" []) rfl rfl rfl (by decide) (by decide)).1

/-- C8, against the modelled resolver: for a pod in a non-terminal phase with at
least one container and an empty requested name, resolution succeeds and the
executor constructor is called with the request built for a target that is a
function of the pod alone: the container declared as default by the annotation
when that container is in the pod, and the first container in declared order
when the annotation is absent, empty or names no container of the pod.  In that
second case, when the pod has several containers, an informational line with a
non-empty text is logged. -/
theorem ExecE_default_container (key : String) (env : Env) (options : KubectlOptions)
    (podName : String) (command : List String) (config : RestConfig)
    (clientset : Clientset) (pod : Pod) (first : Container) (rest : List Container)
    (hresolver : env.FindOrDefaultContainerByName = podcmd.FindOrDefaultContainerByName key)
    (hcfg : env.GetKubernetesRestConfigClientE options = .ok config)
    (hcs : env.NewForConfig config = .ok clientset)
    (hpod : env.GetPodE options podName = .ok pod)
    (hphase : ¬ (pod.Status.Phase = PodSucceeded ∨ pod.Status.Phase = PodFailed))
    (hcont : pod.Spec.Containers = first :: rest) :
    ∃ target evs,
      resolveContainerName env pod "" = (.ok target, evs) ∧
      Event.NewSPDYExecutor config "POST" (execRequest clientset pod options target command) ∈
        (ExecE env options podName "" command).events ∧
      target = (match podcmd.declaredDefault key pod with
        | some c => c.Name
        | none => first.Name) ∧
      (∀ name, pod.Annotations.lookup key = some name → name ≠ "" →
        (∃ c ∈ pod.Spec.Containers, c.Name = name) → target = name) ∧
      ((pod.Annotations.lookup key = none ∨ pod.Annotations.lookup key = some "" ∨
          ∃ name, pod.Annotations.lookup key = some name ∧
            ∀ c ∈ pod.Spec.Containers, c.Name ≠ name) →
        target = first.Name ∧
        (rest ≠ [] → ∃ w, w ≠ "" ∧
          Event.Logf "INFO: %s" [w] ∈ (ExecE env options podName "" command).events)) := by
  have hlen : ("").length = 0 := by decide
  cases hdd : podcmd.declaredDefault key pod with
  | some c =>
    obtain ⟨n, hn, hn0, hmem, hcn⟩ := podcmd.declaredDefault_some key pod c hdd
    have hres : resolveContainerName env pod "" =
        (.ok c.Name, [Event.FindOrDefaultContainerByName pod "" false]) := by
      simp [resolveContainerName, hresolver, podcmd.FindOrDefaultContainerByName, hcont, hdd]
    obtain ⟨tail, htail, -⟩ := ExecE_events_of_resolved env options podName "" command config
      clientset pod c.Name _ hcfg hcs hpod hphase hres
    refine ⟨c.Name, _, hres, ?_, rfl, ?_, ?_⟩
    · rw [htail]
      simp
    · intro name hname _ _
      rw [hn] at hname
      cases hname
      exact hcn
    · rintro (h | h | ⟨name, h, hall⟩)
      · rw [hn] at h
        cases h
      · rw [hn] at h
        cases h
        exact absurd rfl hn0
      · rw [hn] at h
        cases h
        exact absurd hcn (hall c hmem)
  | none =>
    have hres : resolveContainerName env pod "" =
        (.ok first.Name, Event.FindOrDefaultContainerByName pod "" false ::
          (if rest = [] then []
            else [Event.Logf "INFO: %s" [podcmd.defaultedDiagnostic first (first :: rest)]])) := by
      by_cases hrest : rest = []
      · simp [resolveContainerName, hresolver, podcmd.FindOrDefaultContainerByName, hcont, hdd,
          hrest]
      · simp [resolveContainerName, hresolver, podcmd.FindOrDefaultContainerByName, hcont, hdd,
          hrest, podcmd.defaultedDiagnostic_ne_empty]
    obtain ⟨tail, htail, -⟩ := ExecE_events_of_resolved env options podName "" command config
      clientset pod first.Name _ hcfg hcs hpod hphase hres
    refine ⟨first.Name, _, hres, ?_, rfl, ?_, ?_⟩
    · rw [htail]
      simp
    · intro name hname hne ⟨c, hc, hcn⟩
      exfalso
      rcases podcmd.declaredDefault_none key pod hdd with h | h | ⟨n, h, hall⟩
      · rw [hname] at h
        cases h
      · rw [hname] at h
        cases h
        exact hne rfl
      · rw [hname] at h
        cases h
        exact hall c hc hcn
    · intro _
      refine ⟨rfl, ?_⟩
      intro hrest
      refine ⟨podcmd.defaultedDiagnostic first (first :: rest),
        podcmd.defaultedDiagnostic_ne_empty _ _, ?_⟩
      rw [htail]
      simp [hrest]

/-- C8 at the fourth scenario of the spec: containers "sidecar" and "main", no
annotation, empty requested name. -/
theorem ExecE_default_container_witness :
    ∃ target evs,
      resolveContainerName (sampleEnv (samplePod "Running" []) ⟨"", "", none⟩)
        (samplePod "Running" []) "" = (.ok target, evs) ∧
      Event.NewSPDYExecutor sampleConfig "POST"
          (execRequest sampleClientset (samplePod "Running" []) sampleOptions target
            sampleCommand) ∈
        (ExecE (sampleEnv (samplePod "Running" []) ⟨"", "", none⟩) sampleOptions "app-1" ""
          sampleCommand).events ∧
      target = "sidecar" := by
  obtain ⟨target, evs, h1, h2, -, -, h5⟩ :=
    ExecE_default_container "kubectl.kubernetes.io/default-container"
      (sampleEnv (samplePod "Running" []) ⟨"", "", none⟩) sampleOptions "app-1" sampleCommand
      sampleConfig sampleClientset (samplePod "Running" []) ⟨"sidecar"⟩ [⟨"main"⟩]
      rfl rfl rfl rfl (by decide) rfl
  exact ⟨target, evs, h1, h2, (h5 (Or.inl rfl)).1⟩

/-- C9: every call of the executor constructor made by `ExecE` is a POST to the
exec subresource of the fetched pod whose options have stdin off, stdout on,
stderr on and tty off, whose command is the command vector given to `ExecE`,
argument for argument, and whose `container` parameter and `Container` field
both hold the resolved container name; every call of `Stream` attaches no
stdin and no tty. -/
theorem ExecE_request_parameters (env : Env) (options : KubectlOptions)
    (podName containerName : String) (command : List String) :
    (∀ cfg m req, Event.NewSPDYExecutor cfg m req ∈
        (ExecE env options podName containerName command).events →
      req.VersionedParams.Stdin = false ∧ req.VersionedParams.Stdout = true ∧
      req.VersionedParams.Stderr = true ∧ req.VersionedParams.TTY = false ∧
      req.VersionedParams.Command = command ∧
      m = "POST" ∧ req.Resource = "pods" ∧ req.SubResource = "exec" ∧
      req.Namespace = options.Namespace ∧
      ∃ pod c evs, env.GetPodE options podName = .ok pod ∧
        resolveContainerName env pod containerName = (.ok c, evs) ∧
        req.Name = pod.Name ∧
        req.Params = [("container", c)] ∧ req.VersionedParams.Container = c) ∧
    (∀ opts, Event.Stream opts ∈ (ExecE env options podName containerName command).events →
      opts.Stdin = none ∧ opts.Stdout = some Buffer.stdout ∧
        opts.Stderr = some Buffer.stderr ∧ opts.Tty = false) := by
  cases hcfg : env.GetKubernetesRestConfigClientE options with
  | error err => simp [ExecE, hcfg]
  | ok config =>
  cases hcs : env.NewForConfig config with
  | error err => simp [ExecE, hcfg, hcs]
  | ok clientset =>
  cases hpod : env.GetPodE options podName with
  | error err => simp [ExecE, hcfg, hcs, hpod]
  | ok pod =>
  by_cases hphase : pod.Status.Phase = PodSucceeded ∨ pod.Status.Phase = PodFailed
  · simp [ExecE, hcfg, hcs, hpod, if_pos hphase]
  · rcases hr : resolveContainerName env pod containerName with ⟨res, evs⟩
    have hevs := resolveContainerName_events env pod containerName
    rw [hr] at hevs
    cases res with
    | error err =>
      have hrun : (ExecE env options podName containerName command).events =
          [Event.GetKubernetesRestConfigClientE options, Event.NewForConfig config,
            Event.GetPodE options podName] ++ evs := by
        simp only [ExecE, hcfg, hcs, hpod, if_neg hphase, hr]
        rfl
      rw [hrun]
      constructor
      · intro cfg m req he
        simp only [List.cons_append, List.nil_append, List.mem_cons] at he
        rcases he with h | h | h | h
        · cases h
        · cases h
        · cases h
        · rcases hevs _ h with h2 | ⟨w, h2⟩ <;> cases h2
      · intro opts he
        simp only [List.cons_append, List.nil_append, List.mem_cons] at he
        rcases he with h | h | h | h
        · cases h
        · cases h
        · cases h
        · rcases hevs _ h with h2 | ⟨w, h2⟩ <;> cases h2
    | ok c =>
      obtain ⟨tail, htail, htl⟩ := ExecE_events_of_resolved env options podName containerName
        command config clientset pod c evs hcfg hcs hpod hphase hr
      rw [htail]
      constructor
      · intro cfg m req he
        simp only [List.cons_append, List.nil_append, List.mem_cons, List.mem_append] at he
        rcases he with h | h | h | h | h | h
        · cases h
        · cases h
        · cases h
        · rcases hevs _ h with h2 | ⟨w, h2⟩ <;> cases h2
        · cases h
          exact ⟨rfl, rfl, rfl, rfl, rfl, rfl, rfl, rfl, rfl, pod, c, evs, rfl, hr, rfl, rfl, rfl⟩
        · rcases htl _ h with h2 | ⟨msg, h2⟩ <;> cases h2
      · intro opts he
        simp only [List.cons_append, List.nil_append, List.mem_cons, List.mem_append] at he
        rcases he with h | h | h | h | h | h
        · cases h
        · cases h
        · cases h
        · rcases hevs _ h with h2 | ⟨w, h2⟩ <;> cases h2
        · cases h
        · rcases htl _ h with h2 | ⟨msg, h2⟩
          · cases h2
            exact ⟨rfl, rfl, rfl, rfl⟩
          · cases h2

/-- C9 at the first scenario of the spec: the request sent for `echo hi` in the
container "main". -/
theorem ExecE_request_parameters_witness :
    (execRequest sampleClientset (samplePod "Running" []) sampleOptions "main"
        sampleCommand).VersionedParams.Stdin = false ∧
    (execRequest sampleClientset (samplePod "Running" []) sampleOptions "main"
        sampleCommand).VersionedParams.Stdout = true ∧
    (execRequest sampleClientset (samplePod "Running" []) sampleOptions "main"
        sampleCommand).VersionedParams.Stderr = true ∧
    (execRequest sampleClientset (samplePod "Running" []) sampleOptions "main"
        sampleCommand).VersionedParams.TTY = false ∧
    (execRequest sampleClientset (samplePod "Running" []) sampleOptions "main"
        sampleCommand).VersionedParams.Command = sampleCommand :=
  have h := (ExecE_request_parameters (sampleEnv (samplePod "Running" []) ⟨"hi\n", "", none⟩)
    sampleOptions "app-1" "main" sampleCommand).1 sampleConfig "POST"
    (execRequest sampleClientset (samplePod "Running" []) sampleOptions "main" sampleCommand)
    (by decide)
  ⟨h.1, h.2.1, h.2.2.1, h.2.2.2.1, h.2.2.2.2.1⟩

/-! ## The asserting variant -/

/-- C10: `Exec` runs `ExecE` on the same arguments.  When `ExecE` returns a nil
error, `Exec` returns the very output of `ExecE` and does nothing more; when
`ExecE` returns a non-nil error, `Exec` reports the failure to the test handle
and the test is stopped; when `ExecE` panics, so does `Exec`.  Hence the test is
stopped by `Exec` exactly when the error of `ExecE` is non-nil, and `Exec` adds a
failure report to the run exactly then. -/
theorem Exec_delegates (env : Env) (options : KubectlOptions)
    (podName containerName : String) (command : List String) :
    (∀ out, (ExecE env options podName containerName command).outcome = .returned (out, none) →
      Exec env options podName containerName command =
        ⟨.returned out, (ExecE env options podName containerName command).events⟩) ∧
    (∀ out err, (ExecE env options podName containerName command).outcome =
        .returned (out, some err) →
      Exec env options podName containerName command =
        ⟨.failedNow, (ExecE env options podName containerName command).events ++
          [Event.Errorf err, Event.FailNow]⟩) ∧
    (∀ v, (ExecE env options podName containerName command).outcome = .panicked v →
      Exec env options podName containerName command =
        ⟨.panicked v, (ExecE env options podName containerName command).events⟩) ∧
    ((Exec env options podName containerName command).outcome = .failedNow ↔
      ∃ out err, (ExecE env options podName containerName command).outcome =
        .returned (out, some err)) ∧
    ((∃ tail, (Exec env options podName containerName command).events =
        (ExecE env options podName containerName command).events ++ tail ∧
        ∃ e ∈ tail, e.isFailure = true) ↔
      ∃ out err, (ExecE env options podName containerName command).outcome =
        .returned (out, some err)) := by
  have hnf := ExecE_ne_failedNow env options podName containerName command
  unfold Exec
  generalize ExecE env options podName containerName command = r at hnf ⊢
  rcases r with ⟨o, evs⟩
  cases o with
  | returned a =>
    rcases a with ⟨out, err⟩
    cases err with
    | none =>
      refine ⟨?_, ?_, ?_, ?_, ?_⟩ <;> simp [requireNoError]
    | some e =>
      refine ⟨?_, ?_, ?_, ?_, ?_⟩ <;> simp [requireNoError, Event.isFailure]
  | panicked v =>
    refine ⟨?_, ?_, ?_, ?_, ?_⟩ <;> simp
  | failedNow => exact absurd rfl hnf

/-- C10 at the first scenario of the spec: `Exec` hands back the output of
`echo hi` and reports nothing. -/
theorem Exec_delegates_witness :
    Exec (sampleEnv (samplePod "Running" []) ⟨"hi\n", "", none⟩) sampleOptions "app-1" "main"
        sampleCommand =
      ⟨.returned ⟨"hi\n", "", 0⟩,
        (ExecE (sampleEnv (samplePod "Running" []) ⟨"hi\n", "", none⟩) sampleOptions "app-1"
          "main" sampleCommand).events⟩ :=
  (Exec_delegates (sampleEnv (samplePod "Running" []) ⟨"hi\n", "", none⟩) sampleOptions "app-1"
    "main" sampleCommand).1 ⟨"hi\n", "", 0⟩ rfl

end k8s
